import Mathlib

/-!
Verification development for the `documentextraction.py` invoice-extraction
pipeline (PDF text-layer + OCR fallback + tool-calling agent + output
normalization).  The Python source is shallowly embedded below: Python values
produced by `json.loads` become the inductive type `PyVal`, Python dicts
become ordered association lists, Python floats are modelled as exact
rationals (`Rat`), machine-external collaborators (PDF rendering, PIL image
operations, the OCR engine, SHA-256) are parameters, and everything written
in the repository itself (thresholds, regexes, string constants, control
flow) is translated literally.
-/

namespace DocAI

/-! ## Python string helpers -/

/-- Whitespace set used by Python `str.strip()` and the regex class `\s`
(ASCII part: space, tab, newline, carriage return, form feed, vertical tab). -/
def isWS (c : Char) : Bool :=
  c = ' ' || c = '\t' || c = '\n' || c = '\r' || c = Char.ofNat 12 || c = Char.ofNat 11

/-- `str.strip()` on a character list: drop whitespace from both ends. -/
def stripL (cs : List Char) : List Char :=
  ((cs.dropWhile isWS).reverse.dropWhile isWS).reverse

/-- `str.strip()` on a `String`. -/
def pyStrip (s : String) : String :=
  String.mk (stripL s.data)

/-! ## Python value model

`PyVal` covers exactly the values `json.loads` can produce (and that flow
through the normalization code): `None`, `bool`, `int`, `float`, `str`,
`list`, `dict` with string keys.  Python `float` is modelled as `Rat`. -/

inductive PyVal where
  | none
  | bool (b : Bool)
  | int (n : Int)
  | float (q : Rat)
  | str (s : String)
  | list (xs : List PyVal)
  | dict (entries : List (String × PyVal))

/-- Python type name, as it appears in `AttributeError` messages. -/
def pyTypeName : PyVal → String
  | .none => "NoneType"
  | .bool _ => "bool"
  | .int _ => "int"
  | .float _ => "float"
  | .str _ => "str"
  | .list _ => "list"
  | .dict _ => "dict"

/-- Python truthiness (`bool(x)`). -/
def truthy : PyVal → Bool
  | .none => false
  | .bool b => b
  | .int n => n != 0
  | .float q => q != 0
  | .str s => s != ""
  | .list xs => !xs.isEmpty
  | .dict es => !es.isEmpty

/-- `d[k]` lookup on a Python dict (association list, first binding wins;
Python dicts never hold duplicate keys, so this is exact). -/
def dictLookup : List (String × PyVal) → String → Option PyVal
  | [], _ => Option.none
  | (k, v) :: rest, key => if k = key then Option.some v else dictLookup rest key

/-- `d.get(k, default)`. -/
def dictGetD (es : List (String × PyVal)) (key : String) (dflt : PyVal) : PyVal :=
  (dictLookup es key).getD dflt

/-- `d.get(k)` (default `None`). -/
def dictGetNone (es : List (String × PyVal)) (key : String) : PyVal :=
  dictGetD es key .none

/-- `d[k] = v`: replace the existing binding in place, else append
(matches Python dict insertion-order semantics). -/
def dictSet : List (String × PyVal) → String → PyVal → List (String × PyVal)
  | [], key, v => [(key, v)]
  | (k, w) :: rest, key, v =>
    if k = key then (k, v) :: rest else (k, w) :: dictSet rest key v

/-! ## `coerce_number` (source lines 133-145)

```python
def coerce_number(x) -> Optional[float]:
    if x is None: return None
    if isinstance(x, (int, float)): return float(x)
    if isinstance(x, str):
        s = x.strip().replace(",", "")
        s = re.sub(r"^\$", "", s)
        try: return float(s)
        except ValueError: return None
    return None
```

The Python `float()` constructor on strings is modelled by `parsePyFloat`:
optional sign, decimal digits with single underscores allowed between
digits, optional fractional part, optional exponent; `float()` itself
strips surrounding whitespace but the input here is already stripped.
(The special values `inf`/`nan` are not representable in the rational
model and are left out.) -/

def digitVal (c : Char) : Nat := c.toNat - 48

/-- Consume a run of decimal digits where single underscores may separate
digits (Python numeric-literal rule).  `acc` is the value so far, `k` the
number of digits consumed.  Fuel decreases on every step; callers pass
`cs.length + 1` so it never runs out. -/
def digitRun (fuel : Nat) (cs : List Char) (acc k : Nat) : Nat × Nat × List Char :=
  match fuel with
  | 0 => (acc, k, cs)
  | fuel + 1 =>
    match cs with
    | [] => (acc, k, [])
    | c :: rest =>
      if c.isDigit then digitRun fuel rest (acc * 10 + digitVal c) (k + 1)
      else if c = '_' then
        match rest with
        | d :: rest2 =>
          if d.isDigit then digitRun fuel rest2 (acc * 10 + digitVal d) (k + 1)
          else (acc, k, cs)
        | [] => (acc, k, cs)
      else (acc, k, cs)

/-- Model of Python `float(s)` for finite decimal literals, as an exact
rational. Returns `none` where `float()` raises `ValueError`.  The value is
assembled with `mkRat` on integer arithmetic (not `Rat.add`/`Rat.mul`), so
concrete inputs evaluate inside the kernel. -/
def parsePyFloat (cs0 : List Char) : Option Rat :=
  let cs := stripL cs0
  let signRest : Bool × List Char :=
    match cs with
    | '+' :: r => (false, r)
    | '-' :: r => (true, r)
    | _ => (false, cs)
  let neg := signRest.1
  let cs1 := signRest.2
  -- mantissa: digits [. digits?] | . digits ; value is i.f = (i*10^k + f)/10^k
  let mant? : Option (Nat × Nat × List Char) :=
    match cs1 with
    | '.' :: r =>
      match r with
      | d :: _ =>
        if d.isDigit then
          let fr := digitRun (r.length + 1) r 0 0
          Option.some (fr.1, fr.2.1, fr.2.2)
        else Option.none
      | [] => Option.none
    | d :: _ =>
      if d.isDigit then
        let ir := digitRun (cs1.length + 1) cs1 0 0
        match ir.2.2 with
        | '.' :: r2 =>
          let fr := digitRun (r2.length + 1) r2 0 0
          Option.some (ir.1 * 10 ^ fr.2.1 + fr.1, fr.2.1, fr.2.2)
        | rest => Option.some (ir.1, 0, rest)
      else Option.none
    | [] => Option.none
  match mant? with
  | Option.none => Option.none
  | Option.some (m, k, rest) =>
    let signedM : Int := if neg then -(m : Int) else (m : Int)
    match rest with
    | 'e' :: r | 'E' :: r =>
      let expSignRest : Bool × List Char :=
        match r with
        | '+' :: r2 => (false, r2)
        | '-' :: r2 => (true, r2)
        | _ => (false, r)
      match expSignRest.2 with
      | d :: _ =>
        if d.isDigit then
          let er := digitRun (expSignRest.2.length + 1) expSignRest.2 0 0
          if er.2.2 = [] then
            Option.some (if expSignRest.1 then
                mkRat signedM (10 ^ k * 10 ^ er.1)
              else
                mkRat (signedM * ((10 ^ er.1 : Nat) : Int)) (10 ^ k))
          else Option.none
        else Option.none
      | [] => Option.none
    | [] => Option.some (mkRat signedM (10 ^ k))
    | _ => Option.none

/-- Drop every comma: `s.replace(",", "")`. -/
def removeCommas (cs : List Char) : List Char :=
  cs.filter (fun c => c ≠ ',')

/-- `re.sub(r"^\$", "", s)`: strip one leading dollar sign. -/
def stripLeadingDollar (cs : List Char) : List Char :=
  match cs with
  | '$' :: r => r
  | _ => cs

/-- `coerce_number` (source lines 133-145).  Note that Python `bool` is a
subtype of `int`, so booleans pass the `isinstance(x, (int, float))` test. -/
def coerce_number (x : PyVal) : Option Rat :=
  match x with
  | .none => Option.none
  | .bool b => Option.some (if b then 1 else 0)
  | .int n => Option.some (n : Rat)
  | .float q => Option.some q
  | .str s => parsePyFloat (stripLeadingDollar (removeCommas (stripL s.data)))
  | _ => Option.none

example : coerce_number (PyVal.str ("$1,234.56")) = Option.some (mkRat 123456 100) := by decide
example : coerce_number PyVal.none = Option.none := by decide
example : coerce_number (PyVal.str ("abc")) = Option.none := by decide
example : coerce_number (PyVal.int 42) = Option.some (42 : Rat) := by decide
example : coerce_number (PyVal.str ("$$5")) = Option.none := by decide
example : coerce_number (PyVal.str (" $ 1,234.56 ")) = Option.some (mkRat 123456 100) := by decide

/-! ## `normalize_date_to_iso` (source lines 115-130)

```python
def normalize_date_to_iso(date_str):
    if not date_str or not isinstance(date_str, str): return None
    s = date_str.strip()
    for fmt in ("%m/%d/%y", "%m/%d/%Y", "%Y-%m-%d"):
        try:
            dt = datetime.strptime(s, fmt)
            return dt.strftime("%Y-%m-%d")
        except ValueError: pass
    return None
```

`datetime.strptime` compiles the format to a regex and requires it to match
the whole string; the CPython `_strptime` character classes are
`%m ~ 1[0-2]|0[1-9]|[1-9]`, `%d ~ 3[01]|[12]\d|0[1-9]|[1-9]`, `%y ~ \d\d`,
`%Y ~ \d\d\d\d`.  The candidate lists below enumerate the regex alternatives
in backtracking order; a parse succeeds when some path consumes the whole
string, and the resulting numbers must then form a valid calendar date
(otherwise the `datetime` constructor raises and the format fails).
Two-digit years map to 2000-2068 / 1969-1999. -/

def isDigit19 (c : Char) : Bool := '1' ≤ c && c ≤ '9'

/-- Regex alternatives for `%m` (value, remaining input), in order. -/
def monthCands (cs : List Char) : List (Nat × List Char) :=
  (match cs with
   | '1' :: c :: rest =>
     if c = '0' || c = '1' || c = '2' then [(10 + digitVal c, rest)] else []
   | '0' :: c :: rest =>
     if isDigit19 c then [(digitVal c, rest)] else []
   | _ => []) ++
  (match cs with
   | c :: rest => if isDigit19 c then [(digitVal c, rest)] else []
   | [] => [])

/-- Regex alternatives for `%d`. -/
def dayCands (cs : List Char) : List (Nat × List Char) :=
  (match cs with
   | '3' :: c :: rest =>
     if c = '0' || c = '1' then [(30 + digitVal c, rest)] else []
   | '1' :: c :: rest =>
     if c.isDigit then [(10 + digitVal c, rest)] else []
   | '2' :: c :: rest =>
     if c.isDigit then [(20 + digitVal c, rest)] else []
   | '0' :: c :: rest =>
     if isDigit19 c then [(digitVal c, rest)] else []
   | _ => []) ++
  (match cs with
   | c :: rest => if isDigit19 c then [(digitVal c, rest)] else []
   | [] => [])

/-- `%y`: exactly two digits. -/
def twoDigitCand (cs : List Char) : List (Nat × List Char) :=
  match cs with
  | a :: b :: rest =>
    if a.isDigit && b.isDigit then [(10 * digitVal a + digitVal b, rest)] else []
  | _ => []

/-- `%Y`: exactly four digits. -/
def fourDigitCand (cs : List Char) : List (Nat × List Char) :=
  match cs with
  | a :: b :: c :: d :: rest =>
    if a.isDigit && b.isDigit && c.isDigit && d.isDigit then
      [(((digitVal a * 10 + digitVal b) * 10 + digitVal c) * 10 + digitVal d, rest)]
    else []
  | _ => []

/-- A literal separator character in the format. -/
def litChar (ch : Char) (cs : List Char) : List (List Char) :=
  match cs with
  | c :: rest => if c = ch then [rest] else []
  | [] => []

structure YMD where
  year : Nat
  month : Nat
  day : Nat
deriving DecidableEq

def isLeap (y : Nat) : Bool := y % 4 = 0 && (y % 100 != 0 || y % 400 = 0)

def daysInMonth (y m : Nat) : Nat :=
  if m = 2 then (if isLeap y then 29 else 28)
  else if m = 4 || m = 6 || m = 9 || m = 11 then 30
  else 31

/-- `datetime(year, month, day)` constructor validity (MINYEAR 1, MAXYEAR 9999). -/
def validDate (y m d : Nat) : Bool :=
  1 ≤ y && y ≤ 9999 && 1 ≤ m && m ≤ 12 && 1 ≤ d && d ≤ daysInMonth y m

/-- `strptime(s, "%m/%d/%y")` followed by the `datetime` constructor. -/
def parse_mdy2 (cs : List Char) : Option YMD :=
  let ms := (monthCands cs).flatMap fun mc =>
    (litChar ('/') mc.2).flatMap fun r1 =>
    (dayCands r1).flatMap fun dc =>
    (litChar ('/') dc.2).flatMap fun r2 =>
    (twoDigitCand r2).flatMap fun yc =>
      if yc.2.isEmpty then [(mc.1, dc.1, yc.1)] else []
  match ms.head? with
  | Option.some (m, d, yy) =>
    let y := if yy ≤ 68 then 2000 + yy else 1900 + yy
    if validDate y m d then Option.some ⟨y, m, d⟩ else Option.none
  | Option.none => Option.none

/-- `strptime(s, "%m/%d/%Y")` followed by the `datetime` constructor. -/
def parse_mdY4 (cs : List Char) : Option YMD :=
  let ms := (monthCands cs).flatMap fun mc =>
    (litChar ('/') mc.2).flatMap fun r1 =>
    (dayCands r1).flatMap fun dc =>
    (litChar ('/') dc.2).flatMap fun r2 =>
    (fourDigitCand r2).flatMap fun yc =>
      if yc.2.isEmpty then [(mc.1, dc.1, yc.1)] else []
  match ms.head? with
  | Option.some (m, d, y) =>
    if validDate y m d then Option.some ⟨y, m, d⟩ else Option.none
  | Option.none => Option.none

/-- `strptime(s, "%Y-%m-%d")` followed by the `datetime` constructor. -/
def parse_Ymd (cs : List Char) : Option YMD :=
  let ms := (fourDigitCand cs).flatMap fun yc =>
    (litChar ('-') yc.2).flatMap fun r1 =>
    (monthCands r1).flatMap fun mc =>
    (litChar ('-') mc.2).flatMap fun r2 =>
    (dayCands r2).flatMap fun dc =>
      if dc.2.isEmpty then [(yc.1, mc.1, dc.1)] else []
  match ms.head? with
  | Option.some (y, m, d) =>
    if validDate y m d then Option.some ⟨y, m, d⟩ else Option.none
  | Option.none => Option.none

def pad2 (n : Nat) : String :=
  if n < 10 then ("0") ++ toString n else toString n

def pad4 (n : Nat) : String :=
  if n < 10 then ("000") ++ toString n
  else if n < 100 then ("00") ++ toString n
  else if n < 1000 then ("0") ++ toString n
  else toString n

/-- `dt.strftime("%Y-%m-%d")` (year zero-padded to four digits). -/
def renderIso (d : YMD) : String :=
  pad4 d.year ++ "-" ++ pad2 d.month ++ "-" ++ pad2 d.day

/-- `normalize_date_to_iso` (source lines 115-130).  The argument is a Python
value: the call sites pass `node.get("value")`, which need not be a string;
`if not date_str or not isinstance(date_str, str)` rejects every non-string
and the empty string. -/
def normalize_date_to_iso (x : PyVal) : Option String :=
  match x with
  | .str s =>
    if s = "" then Option.none
    else
      let t := stripL s.data
      match parse_mdy2 t with
      | Option.some d => Option.some (renderIso d)
      | Option.none =>
        match parse_mdY4 t with
        | Option.some d => Option.some (renderIso d)
        | Option.none => (parse_Ymd t).map renderIso
  | _ => Option.none

example : normalize_date_to_iso (PyVal.str ("03/15/24")) = Option.some ("2024-03-15") := by decide
example : normalize_date_to_iso (PyVal.str ("2024-03-15")) = Option.some ("2024-03-15") := by decide
example : normalize_date_to_iso (PyVal.str ("not a date")) = Option.none := by decide
example : normalize_date_to_iso PyVal.none = Option.none := by decide
example : normalize_date_to_iso (PyVal.str ("01/02/03")) = Option.some ("2003-01-02") := by decide
example : normalize_date_to_iso (PyVal.str ("3/5/1999")) = Option.some ("1999-03-05") := by decide
example : normalize_date_to_iso (PyVal.str ("02/29/23")) = Option.none := by decide
example : normalize_date_to_iso (PyVal.str ("02/29/24")) = Option.some ("2024-02-29") := by decide
example : normalize_date_to_iso (PyVal.str (" 12/31/99 ")) = Option.some ("1999-12-31") := by decide
example : normalize_date_to_iso (PyVal.int 20240315) = Option.none := by decide

/-! ## `extract_json` (source lines 66-73)

```python
def extract_json(text: str) -> str:
    if not text: return text
    m = re.search(r"```(?:json)?\s*(\{.*?\})\s*```", text, flags=re.DOTALL | re.IGNORECASE)
    if m: return m.group(1).strip()
    return text.strip()
```

`re.search` tries the pattern at position 0, 1, 2, ...; the first position
where it matches wins.  At a given position the pattern is deterministic
except for the lazy `.*?`, which takes the shortest extent whose closing
brace is followed by `\s*` and three backticks.  (`(?:json)?` and `\s*`
never need backtracking here because `json`, whitespace and `{` are
pairwise disjoint at the positions that follow them.) -/

/-- The backtick character (ASCII 96). -/
def btick : Char := Char.ofNat 96

/-- Three backticks; `some rest` when `cs` starts with them. -/
def hasTicks : List Char → Option (List Char)
  | a :: b :: c :: rest =>
    if a = btick ∧ b = btick ∧ c = btick then Option.some rest else Option.none
  | _ => Option.none

/-- `(?:json)?` with `re.IGNORECASE`: consume a case-insensitive `json` if present. -/
def dropJsonTag (cs : List Char) : List Char :=
  match cs with
  | a :: b :: c :: d :: rest =>
    if a.toLower = 'j' ∧ b.toLower = 's' ∧ c.toLower = 'o' ∧ d.toLower = 'n' then rest
    else cs
  | _ => cs

/-- Does `\s*` followed by three backticks match a prefix of `cs`? -/
def closesOk (cs : List Char) : Bool :=
  (hasTicks (cs.dropWhile isWS)).isSome

/-- Lazy scan for the earliest `}` whose suffix matches `\s*` + three
backticks; `acc` holds the group characters consumed so far (reversed). -/
def findClose : List Char → List Char → Option (List Char)
  | [], _ => Option.none
  | c :: rest, acc =>
    if c = '}' ∧ closesOk rest then Option.some (acc.reverse ++ [c])
    else findClose rest (c :: acc)

/-- Match the fence pattern anchored at the head of `cs`; returns `group(1)`. -/
def fenceMatchAt (cs : List Char) : Option (List Char) :=
  match hasTicks cs with
  | Option.none => Option.none
  | Option.some cs1 =>
    match (dropJsonTag cs1).dropWhile isWS with
    | '{' :: rest => findClose rest ['{']
    | _ => Option.none

/-- `re.search`: first position whose anchored match succeeds. -/
def fenceSearch : List Char → Option (List Char)
  | [] => Option.none
  | c :: rest =>
    match fenceMatchAt (c :: rest) with
    | Option.some g => Option.some g
    | Option.none => fenceSearch rest

/-- `extract_json` (source lines 66-73). -/
def extract_json (text : String) : String :=
  if text = "" then text
  else
    match fenceSearch text.data with
    | Option.some g => String.mk (stripL g)
    | Option.none => String.mk (stripL text.data)

example : extract_json ("```json\n\x7b\"a\": 1\x7d\n```") = "\x7b\"a\": 1\x7d" := by decide
example : extract_json ("```json\n\x7b\"a\": \x7b\"b\": 1\x7d\x7d\n```") =
    "\x7b\"a\": \x7b\"b\": 1\x7d\x7d" := by decide
example : extract_json ("  plain text  ") = "plain text" := by decide
example : extract_json ("") = "" := by decide
example : extract_json ("``` \x7b1: 2\x7d ```") = "\x7b1: 2\x7d" := by decide

/-! ## `json.loads` model

A straight JSON (RFC 8259) parser producing `PyVal`, mirroring Python
`json.loads`: objects keep the last binding for a duplicated key, numbers
without fraction/exponent become `int`, the rest `float`, raw control
characters below 0x20 are rejected inside strings (default `strict=True`).
All recursion is fueled; `fuel = length + 1` never runs out because every
step consumes at least one character. -/

def jsonWS (c : Char) : Bool := c = ' ' || c = '\t' || c = '\n' || c = '\r'

/-- Consume a run of plain decimal digits (value, count, rest). -/
def digitSpan : List Char → Nat → Nat → Nat × Nat × List Char
  | [], acc, k => (acc, k, [])
  | c :: rest, acc, k =>
    if c.isDigit then digitSpan rest (acc * 10 + digitVal c) (k + 1)
    else (acc, k, c :: rest)

def hexVal (c : Char) : Option Nat :=
  if c.isDigit then Option.some (c.toNat - 48)
  else if 'a' ≤ c && c ≤ 'f' then Option.some (c.toNat - 87)
  else if 'A' ≤ c && c ≤ 'F' then Option.some (c.toNat - 55)
  else Option.none

/-- JSON string body after the opening quote: returns (content, rest after
closing quote). -/
def parseJStr (fuel : Nat) (cs : List Char) : Option (List Char × List Char) :=
  match fuel with
  | 0 => Option.none
  | fuel + 1 =>
    match cs with
    | [] => Option.none
    | c :: rest =>
      if c = '"' then Option.some ([], rest)
      else if c = '\\' then
        match rest with
        | [] => Option.none
        | e :: rest2 =>
          if e = 'u' then
            match rest2 with
            | a :: b :: c2 :: d :: rest3 =>
              match hexVal a, hexVal b, hexVal c2, hexVal d with
              | Option.some x, Option.some y, Option.some z, Option.some w =>
                (parseJStr fuel rest3).map fun pr =>
                  (Char.ofNat (((x * 16 + y) * 16 + z) * 16 + w) :: pr.1, pr.2)
              | _, _, _, _ => Option.none
            | _ => Option.none
          else
            let ch? : Option Char :=
              if e = '"' then Option.some ('"')
              else if e = '\\' then Option.some ('\\')
              else if e = '/' then Option.some ('/')
              else if e = 'b' then Option.some (Char.ofNat 8)
              else if e = 'f' then Option.some (Char.ofNat 12)
              else if e = 'n' then Option.some ('\n')
              else if e = 'r' then Option.some ('\r')
              else if e = 't' then Option.some ('\t')
              else Option.none
            match ch? with
            | Option.some ch => (parseJStr fuel rest2).map fun pr => (ch :: pr.1, pr.2)
            | Option.none => Option.none
      else if c.toNat < 32 then Option.none
      else (parseJStr fuel rest).map fun pr => (c :: pr.1, pr.2)

/-- JSON number: `-? (0 | [1-9][0-9]*) (. [0-9]+)? ([eE][+-]?[0-9]+)?`. -/
def parseJNum (cs : List Char) : Option (PyVal × List Char) :=
  let signRest : Bool × List Char :=
    match cs with
    | '-' :: r => (true, r)
    | _ => (false, cs)
  let neg := signRest.1
  let cs1 := signRest.2
  let int? : Option (Nat × List Char) :=
    match cs1 with
    | '0' :: r => Option.some (0, r)
    | c :: _ =>
      if isDigit19 c then
        let sp := digitSpan cs1 0 0
        Option.some (sp.1, sp.2.2)
      else Option.none
    | [] => Option.none
  match int? with
  | Option.none => Option.none
  | Option.some (i, rest1) =>
    let frac? : Option (Nat × Nat × List Char) :=
      match rest1 with
      | '.' :: r =>
        match r with
        | d :: _ =>
          if d.isDigit then
            let sp := digitSpan r 0 0
            Option.some (sp.1, sp.2.1, sp.2.2)
          else Option.none
        | [] => Option.none
      | _ => Option.some (0, 0, rest1)
    match frac? with
    | Option.none => Option.none
    | Option.some (f, k, rest2) =>
      let exp? : Option (Bool × Nat × Bool × List Char) :=
        match rest2 with
        | 'e' :: r | 'E' :: r =>
          let es : Bool × List Char :=
            match r with
            | '+' :: r2 => (false, r2)
            | '-' :: r2 => (true, r2)
            | _ => (false, r)
          match es.2 with
          | d :: _ =>
            if d.isDigit then
              let sp := digitSpan es.2 0 0
              Option.some (es.1, sp.1, true, sp.2.2)
            else Option.none
          | [] => Option.none
        | _ => Option.some (false, 0, false, rest2)
      match exp? with
      | Option.none => Option.none
      | Option.some (eneg, e, hasExp, rest3) =>
        if k = 0 ∧ hasExp = false then
          Option.some (.int (if neg then -(i : Int) else (i : Int)), rest3)
        else
          let m : Nat := i * 10 ^ k + f
          let sm : Int := if neg then -(m : Int) else (m : Int)
          let q : Rat :=
            if eneg then mkRat sm (10 ^ k * 10 ^ e)
            else mkRat (sm * ((10 ^ e : Nat) : Int)) (10 ^ k)
          Option.some (.float q, rest3)

mutual

/-- One JSON value (leading whitespace allowed), returns the rest. -/
def parseJVal : Nat → List Char → Option (PyVal × List Char)
  | 0, _ => Option.none
  | fuel + 1, cs0 =>
    let cs := cs0.dropWhile jsonWS
    match cs with
    | '{' :: r =>
      let r1 := r.dropWhile jsonWS
      match r1 with
      | '}' :: r2 => Option.some (.dict [], r2)
      | _ => parseJMembers fuel r1 []
    | '[' :: r =>
      let r1 := r.dropWhile jsonWS
      match r1 with
      | ']' :: r2 => Option.some (.list [], r2)
      | _ => parseJItems fuel r1 []
    | '"' :: r => (parseJStr (r.length + 1) r).map fun pr => (.str (String.mk pr.1), pr.2)
    | 't' :: 'r' :: 'u' :: 'e' :: r => Option.some (.bool true, r)
    | 'f' :: 'a' :: 'l' :: 's' :: 'e' :: r => Option.some (.bool false, r)
    | 'n' :: 'u' :: 'l' :: 'l' :: r => Option.some (.none, r)
    | _ => parseJNum cs

/-- Object members from the first key on (whitespace already skipped). -/
def parseJMembers : Nat → List Char → List (String × PyVal) →
    Option (PyVal × List Char)
  | 0, _, _ => Option.none
  | fuel + 1, cs, acc =>
    match cs with
    | '"' :: r =>
      match parseJStr (r.length + 1) r with
      | Option.some (kcs, r1) =>
        match r1.dropWhile jsonWS with
        | ':' :: r3 =>
          match parseJVal fuel r3 with
          | Option.some (v, r4) =>
            let acc2 := dictSet acc (String.mk kcs) v
            match r4.dropWhile jsonWS with
            | ',' :: r6 => parseJMembers fuel (r6.dropWhile jsonWS) acc2
            | '}' :: r6 => Option.some (.dict acc2, r6)
            | _ => Option.none
          | Option.none => Option.none
        | _ => Option.none
      | Option.none => Option.none
    | _ => Option.none

/-- Array items from the first item on (whitespace already skipped). -/
def parseJItems : Nat → List Char → List PyVal → Option (PyVal × List Char)
  | 0, _, _ => Option.none
  | fuel + 1, cs, acc =>
    match parseJVal fuel cs with
    | Option.some (v, r) =>
      match r.dropWhile jsonWS with
      | ',' :: r2 => parseJItems fuel r2 (acc ++ [v])
      | ']' :: r2 => Option.some (.list (acc ++ [v]), r2)
      | _ => Option.none
    | Option.none => Option.none

end

/-- `json.loads`: parse one JSON document, requiring only trailing
whitespace after it; `none` models `json.JSONDecodeError`. -/
def json_loads (s : String) : Option PyVal :=
  match parseJVal (s.data.length + 1) s.data with
  | Option.some (v, rest) =>
    if (rest.dropWhile jsonWS).isEmpty then Option.some v else Option.none
  | Option.none => Option.none

example : json_loads ("\x7b\"a\": 1\x7d") =
    Option.some (PyVal.dict [("a", PyVal.int 1)]) := rfl
example : json_loads ("[1, -2.5, \"x\", true, null]") =
    Option.some (PyVal.list [PyVal.int 1, PyVal.float (mkRat (-25) 10), PyVal.str ("x"),
      PyVal.bool true, PyVal.none]) := rfl
example : json_loads ("\x7b\"a\": \"\x7d\"") = Option.none := rfl
example : json_loads ("not json") = Option.none := rfl
example : json_loads ("\x7b\"k\": \x7b\x7d\x7d") =
    Option.some (PyVal.dict [("k", PyVal.dict [])]) := rfl

/-! ## Image preprocessing and per-page extraction (source lines 85-102)

Images and PDF pages are abstract types; the PIL operations used by
`preprocess_for_ocr` and the OCR engine (`pytesseract.image_to_string`) are
parameters.  The binarization threshold lambda (`0 if x < 160 else 255`) is
written in the repository and is therefore concrete. -/

/-- The PIL operations used by `preprocess_for_ocr`, as abstract parameters
over an abstract image type. -/
structure PILOps (Img : Type) where
  exif_transpose : Img → Img
  convertL : Img → Img
  autocontrast : Img → Img
  sharpen : Img → Img
  point : (Nat → Nat) → Img → Img

/-- `preprocess_for_ocr` (source lines 85-92): EXIF transpose, grayscale,
autocontrast, sharpen, then binarize with the fixed threshold 160. -/
def preprocess_for_ocr {Img : Type} (ops : PILOps Img) (img : Img) : Img :=
  ops.point (fun x => if x < 160 then 0 else 255)
    (ops.sharpen (ops.autocontrast (ops.convertL (ops.exif_transpose img))))

/-- `extract_text_from_page` (source lines 95-102):

```python
text_layer = (page.get_text("text") or ("")).strip()
if len(text_layer) >= 30: return text_layer, False
ocr_img = preprocess_for_ocr(img)
text = pytesseract.image_to_string(ocr_img, config="--psm 6")
return text, True
```

`get_text` is the text-layer reader of the PDF library (`or ("")` maps a falsy
result to the empty string); `tess img config` is the OCR engine. -/
def extract_text_from_page {Pg Img : Type} (ops : PILOps Img)
    (tess : Img → String → String) (get_text : Pg → Option String)
    (page : Pg) (img : Img) : String × Bool :=
  let text_layer := String.mk (stripL ((get_text page).getD ("")).data)
  if 30 ≤ text_layer.length then (text_layer, false)
  else
    let ocr_img := preprocess_for_ocr ops img
    (tess ocr_img ("--psm 6"), true)

/-! ## Document Store and tools (source lines 37-42 and 151-181) -/

/-- One entry of `DOC_STORE["pages"]`: the dict
`{"page": i+1, "used_ocr": used_ocr, "text": text}`. -/
structure Page where
  page : Nat
  used_ocr : Bool
  text : String
deriving DecidableEq

/-- `DOC_STORE`: the four keys are all initialized to `None`. -/
structure DocStore (Img : Type) where
  doc_id : Option String
  pages : Option (List Page)
  images : Option (List Img)
  full_text : Option String

/-- The initial `DOC_STORE` (every key `None`). -/
def emptyStore (Img : Type) : DocStore Img :=
  ⟨Option.none, Option.none, Option.none, Option.none⟩

/-- `get_full_text` (source lines 151-157): returns the cached text only
when it is truthy and has non-whitespace content. -/
def get_full_text {Img : Type} (store : DocStore Img) : String :=
  match store.full_text with
  | Option.some t =>
    if t ≠ "" ∧ pyStrip t ≠ "" then t
    else ("ERROR: No document text loaded. Upload and process a PDF first.")
  | Option.none => "ERROR: No document text loaded. Upload and process a PDF first."

/-- `get_page_text` (source lines 160-168).  `page_number` is an `Int` so
that every integer argument is covered; the function is total (tool errors
are strings, not exceptions). -/
def get_page_text {Img : Type} (store : DocStore Img) (page_number : Int) : String :=
  match store.pages with
  | Option.none => "ERROR: No pages loaded. Upload and process a PDF first."
  | Option.some pages =>
    if pages.isEmpty then ("ERROR: No pages loaded. Upload and process a PDF first.")
    else if page_number < 1 ∨ (pages.length : Int) < page_number then
      "ERROR: page_number out of range. Must be 1.." ++ toString pages.length
    else (pages.getD (page_number - 1).toNat ⟨0, false, ""⟩).text

/-- `ocr_page` (source lines 171-181): fresh preprocessing + OCR on the
cached page image, never written back to the store. -/
def ocr_page {Img : Type} [Inhabited Img] (ops : PILOps Img)
    (tess : Img → String → String) (store : DocStore Img) (page_number : Int) : String :=
  match store.images with
  | Option.none => "ERROR: No document images loaded. Upload and process a PDF first."
  | Option.some images =>
    if images.isEmpty then ("ERROR: No document images loaded. Upload and process a PDF first.")
    else if page_number < 1 ∨ (images.length : Int) < page_number then
      "ERROR: page_number out of range. Must be 1.." ++ toString images.length
    else
      let img := images.getD (page_number - 1).toNat default
      tess (preprocess_for_ocr ops img) ("--psm 6")

/-! ## Upload handler (source lines 198-221)

```python
pdf_bytes = uploaded.getvalue()
doc_id = compute_doc_id(pdf_bytes)
if DOC_STORE.get("doc_id") != doc_id or DOC_STORE.get("pages") is None:
    doc = fitz.open(stream=pdf_bytes, filetype="pdf")
    for i in range(len(doc)):
        page = doc[i]
        img = page_to_image(page, dpi=dpi)
        text, used_ocr = extract_text_from_page(page, img)
        ...
    DOC_STORE[...] = ...
```

`sha256` models `compute_doc_id` (hashlib), `open_pdf` models
`fitz.open(stream=...)` (the page list determined by the bytes), `render`
models `page_to_image` at the given DPI.  The result records how many pages
were rendered and how many were OCRed during this upload, so cache hits are
observable (`renders = ocrs = 0`). -/

structure UploadOut (Img : Type) where
  store : DocStore Img
  renders : Nat
  ocrs : Nat

def upload {Pg Img : Type} (ops : PILOps Img) (tess : Img → String → String)
    (get_text : Pg → Option String) (render : Pg → Nat → Img)
    (open_pdf : List Nat → List Pg) (sha256 : List Nat → String)
    (store : DocStore Img) (pdf_bytes : List Nat) (dpi : Nat) : UploadOut Img :=
  let doc_id := sha256 pdf_bytes
  if store.doc_id ≠ Option.some doc_id ∨ store.pages = Option.none then
    let doc := open_pdf pdf_bytes
    let items := doc.enum.map (fun pr =>
      let img := render pr.2 dpi
      let tu := extract_text_from_page ops tess get_text pr.2 img
      ((⟨pr.1 + 1, tu.2, tu.1⟩ : Page), img))
    let pages := items.map Prod.fst
    let images := items.map Prod.snd
    let full_text := String.intercalate ("\n\n") (pages.map Page.text)
    ⟨⟨Option.some doc_id, Option.some pages, Option.some images, Option.some full_text⟩,
      doc.length, (pages.filter Page.used_ocr).length⟩
  else
    ⟨store, 0, 0⟩

/-! ## Post-normalization block and the extraction run (source lines 247-382)

The run body is

```python
try:
    agent = build_agent()                       # may raise RuntimeError
    resp = agent.invoke(...)                    # external
    agent_output_text = resp["messages"][-1].content
    extracted_fields = json.loads(extract_json(agent_output_text))
    f = extracted_fields.get("fields", {})      # AttributeError on non-dict
    inv = f.get("invoice_date", {})
    due = f.get("due_date", {})
    if inv and inv.get("value") and not inv.get("value_iso"):
        inv["value_iso"] = normalize_date_to_iso(inv.get("value"))
    if due and due.get("value") and not due.get("value_iso"):
        due["value_iso"] = normalize_date_to_iso(due.get("value"))
    for k in ("tax", "total", "balance_due"):
        node = f.get(k)
        if isinstance(node, dict):
            node["value"] = coerce_number(node.get("value"))
    extracted_fields["fields"] = f
except json.JSONDecodeError:
    error_msg = "Claude did not return valid JSON. See agent_output_raw for details."
except Exception as e:
    error_msg = str(e)
```

Mutation is by aliasing: `f` aliases `extracted_fields["fields"]` when that
key exists (mutations before an exception stay visible), and is a fresh
empty dict otherwise.  The model returns the (possibly partially mutated)
value together with the exception, if one was raised. -/

/-- Python exceptions that the modelled code can raise. -/
inductive PyExc where
  | attributeError (typeName : String) (attr : String)
  | runtimeError (msg : String)
deriving DecidableEq

/-- The apostrophe character, used by `AttributeError` rendering. -/
def quoteCh : String := (Char.ofNat 39).toString

/-- `str(e)` for the modelled exceptions. -/
def strOfExc : PyExc → String
  | .attributeError t a =>
    quoteCh ++ t ++ quoteCh ++ " object has no attribute " ++ quoteCh ++ a ++ quoteCh
  | .runtimeError m => m

/-- One date fix-up (`invoice_date` / `due_date`): the `if node and
node.get("value") and not node.get("value_iso")` guard plus the aliased
write-back.  A truthy non-dict node raises `AttributeError` at
`node.get("value")`, before any mutation. -/
def applyDateFix (fes : List (String × PyVal)) (key : String) :
    Except PyExc (List (String × PyVal)) :=
  let node := dictGetD fes key (.dict [])
  if truthy node then
    match node with
    | .dict nes =>
      if truthy (dictGetNone nes ("value")) && !truthy (dictGetNone nes ("value_iso")) then
        let nes2 := dictSet nes ("value_iso")
          ((normalize_date_to_iso (dictGetNone nes ("value"))).elim PyVal.none PyVal.str)
        Except.ok (if (dictLookup fes key).isSome then dictSet fes key (.dict nes2) else fes)
      else Except.ok fes
    | other => Except.error (.attributeError (pyTypeName other) ("get"))
  else Except.ok fes

/-- One numeric coercion (`tax` / `total` / `balance_due`): only dict nodes
are touched (`isinstance(node, dict)`), and their `value` is replaced by
`coerce_number(value)` unconditionally. -/
def applyCoerce (fes : List (String × PyVal)) (key : String) :
    List (String × PyVal) :=
  match dictLookup fes key with
  | Option.some (.dict nes) =>
    dictSet fes key (.dict (dictSet nes ("value")
      ((coerce_number (dictGetNone nes ("value"))).elim PyVal.none PyVal.float)))
  | _ => fes

/-- The whole fields-level normalization; on an exception the returned list
is the state at raise time (mutations already performed stay). -/
def normalizeFields (fes : List (String × PyVal)) :
    List (String × PyVal) × Option PyExc :=
  match applyDateFix fes ("invoice_date") with
  | Except.error e => (fes, Option.some e)
  | Except.ok fes1 =>
    match applyDateFix fes1 ("due_date") with
    | Except.error e => (fes1, Option.some e)
    | Except.ok fes2 =>
      ([("tax" : String), "total", "balance_due"].foldl applyCoerce fes2, Option.none)

/-- The post-parse normalization block applied to `extracted_fields`
(source lines 350-367), including the trailing
`extracted_fields["fields"] = f` assignment. -/
def normalizeBlock (extracted : PyVal) : PyVal × Option PyExc :=
  match extracted with
  | .dict es =>
    match dictGetD es ("fields") (.dict []) with
    | .dict fes =>
      match normalizeFields fes with
      | (fes1, Option.some e) =>
        ((if (dictLookup es ("fields")).isSome then
            PyVal.dict (dictSet es ("fields") (.dict fes1))
          else PyVal.dict es), Option.some e)
      | (fes1, Option.none) =>
        (PyVal.dict (dictSet es ("fields") (.dict fes1)), Option.none)
    | other =>
      (PyVal.dict es, Option.some (.attributeError (pyTypeName other) ("get")))
  | other => (other, Option.some (.attributeError (pyTypeName other) ("get")))

/-- `error_msg` for the `json.JSONDecodeError` handler (source line 370). -/
def invalidJsonMsg : String :=
  "Claude did not return valid JSON. See agent_output_raw for details."

/-- Outcome of one extraction run: the final values of the three locals
`extracted_fields` (initialized `{}`), `agent_output_text` (initialized
`None`) and `error_msg` (initialized `None`). -/
structure RunOut where
  extracted_fields : PyVal
  agent_output_raw : Option String
  error_msg : Option String

/-- The extraction run (source lines 247-372).  `agent_result` is the
outcome of `build_agent()` + `agent.invoke(...)`: an exception (for example
the missing-API-key `RuntimeError`) or the agent answer string. -/
def run_extraction (agent_result : Except PyExc String) : RunOut :=
  match agent_result with
  | Except.error e => ⟨.dict [], Option.none, Option.some (strOfExc e)⟩
  | Except.ok answer =>
    match json_loads (extract_json answer) with
    | Option.none => ⟨.dict [], Option.some answer, Option.some invalidJsonMsg⟩
    | Option.some v =>
      match normalizeBlock v with
      | (v1, Option.some e) => ⟨v1, Option.some answer, Option.some (strOfExc e)⟩
      | (v1, Option.none) => ⟨v1, Option.some answer, Option.none⟩

/-- The model id fixed at source line 55. -/
def CLAUDE_SONNET_MODEL : String := "claude-sonnet-4-5"

/-- `DOC_STORE["pages"]` entry rendered back to a Python value. -/
def pageToPy (p : Page) : PyVal :=
  .dict [("page", .int p.page), ("used_ocr", .bool p.used_ocr), ("text", .str p.text)]

/-- The final `result` payload (source lines 375-382).  The `DOC_STORE`
keys always exist (initialized to `None`), so the `.get(..., default)`
defaults are never taken and an unset key contributes `None`. -/
def result_payload {Img : Type} (store : DocStore Img) (out : RunOut)
    (temperature : Rat) : List (String × PyVal) :=
  [("text", (store.full_text.map PyVal.str).getD PyVal.none),
   ("pages", (store.pages.map (fun ps => PyVal.list (ps.map pageToPy))).getD PyVal.none),
   ("extraction", out.extracted_fields),
   ("agent_output_raw", (out.agent_output_raw.map PyVal.str).getD PyVal.none),
   ("error", (out.error_msg.map PyVal.str).getD PyVal.none),
   ("llm", .dict [("provider", .str ("anthropic")), ("model", .str CLAUDE_SONNET_MODEL),
      ("temperature", .float temperature)])]

example :
    normalizeBlock (PyVal.dict [("fields", PyVal.dict
      [("tax", PyVal.dict [("value", PyVal.str ("abc"))])])]) =
    (PyVal.dict [("fields", PyVal.dict
      [("tax", PyVal.dict [("value", PyVal.none)])])], Option.none) := rfl

example :
    normalizeBlock (PyVal.list [PyVal.int 1]) =
    (PyVal.list [PyVal.int 1],
     Option.some (PyExc.attributeError ("list") ("get"))) := rfl

example :
    normalizeBlock (PyVal.dict [("fields", PyVal.dict
      [("invoice_date", PyVal.dict [("value", PyVal.str ("03/15/24"))])])]) =
    (PyVal.dict [("fields", PyVal.dict
      [("invoice_date", PyVal.dict [("value", PyVal.str ("03/15/24")),
        ("value_iso", PyVal.str ("2024-03-15"))])])], Option.none) := rfl

example :
    run_extraction (Except.ok ("[1]")) =
    ⟨PyVal.list [PyVal.int 1], Option.some ("[1]"),
     Option.some (strOfExc (PyExc.attributeError ("list") ("get")))⟩ := rfl

example :
    run_extraction (Except.ok ("no json here")) =
    ⟨PyVal.dict [], Option.some ("no json here"), Option.some invalidJsonMsg⟩ := rfl

/-- View of `extracted["fields"][k]` used to state normalization claims. -/
def fieldsView (v : PyVal) (k : String) : Option PyVal :=
  match v with
  | .dict es =>
    match dictLookup es ("fields") with
    | Option.some (.dict fes) => dictLookup fes k
    | _ => Option.none
  | _ => Option.none

/-- `isinstance(v, dict)`. -/
def isDict : PyVal → Bool
  | .dict _ => true
  | _ => false

/-- A date node that cannot raise inside the normalization guard: either
falsy (guard short-circuits) or a dict (has `.get`). -/
def dateSafe (n : PyVal) : Prop :=
  truthy n = false ∨ ∃ l, n = PyVal.dict l

/-! # Dict lemmas -/

theorem dictLookup_dictSet_self (l : List (String × PyVal)) (k : String) (v : PyVal) :
    dictLookup (dictSet l k v) k = Option.some v := by
  induction l with
  | nil => simp [dictSet, dictLookup]
  | cons hd tl ih =>
    obtain ⟨k1, w⟩ := hd
    by_cases h : k1 = k
    · simp [dictSet, dictLookup, h]
    · simp [dictSet, dictLookup, h, ih]

theorem dictLookup_dictSet_ne (l : List (String × PyVal)) (k : String) (v : PyVal)
    (k2 : String) (h : k2 ≠ k) :
    dictLookup (dictSet l k v) k2 = dictLookup l k2 := by
  induction l with
  | nil => simp [dictSet, dictLookup, Ne.symm h]
  | cons hd tl ih =>
    obtain ⟨k1, w⟩ := hd
    by_cases h1 : k1 = k
    · simp [dictSet, dictLookup, h1, Ne.symm h]
    · simp [dictSet, dictLookup, h1, ih]

theorem dictSet_eq_self (l : List (String × PyVal)) (k : String) (v : PyVal)
    (h : dictLookup l k = Option.some v) : dictSet l k v = l := by
  induction l with
  | nil => simp [dictLookup] at h
  | cons hd tl ih =>
    obtain ⟨k1, w⟩ := hd
    by_cases h1 : k1 = k
    · subst h1
      simp [dictLookup] at h
      simp [dictSet, h]
    · simp [dictLookup, h1] at h
      simp [dictSet, h1, ih h]

/-! # Verified claims -/

/-- C4: `normalize_date_to_iso` tries the ordered format list `MM/DD/YY`,
`MM/DD/YYYY`, `YYYY-MM-DD` (first match wins), renders the first matching
parse as `YYYY-MM-DD`, and returns null for null/non-string inputs or when
no format matches; in particular the four examples of the spec hold. -/
theorem claim_C4 :
    normalize_date_to_iso (PyVal.str ("03/15/24")) = Option.some ("2024-03-15") ∧
    normalize_date_to_iso (PyVal.str ("2024-03-15")) = Option.some ("2024-03-15") ∧
    normalize_date_to_iso (PyVal.str ("not a date")) = Option.none ∧
    normalize_date_to_iso PyVal.none = Option.none ∧
    (∀ n : Int, normalize_date_to_iso (PyVal.int n) = Option.none) ∧
    (∀ q : Rat, normalize_date_to_iso (PyVal.float q) = Option.none) ∧
    (∀ b : Bool, normalize_date_to_iso (PyVal.bool b) = Option.none) ∧
    (∀ xs, normalize_date_to_iso (PyVal.list xs) = Option.none) ∧
    (∀ es, normalize_date_to_iso (PyVal.dict es) = Option.none) ∧
    (∀ s d, parse_mdy2 (stripL s.data) = Option.some d →
      normalize_date_to_iso (PyVal.str s) = Option.some (renderIso d)) ∧
    (∀ s d, parse_mdy2 (stripL s.data) = Option.none →
      parse_mdY4 (stripL s.data) = Option.some d →
      normalize_date_to_iso (PyVal.str s) = Option.some (renderIso d)) ∧
    (∀ s d, parse_mdy2 (stripL s.data) = Option.none →
      parse_mdY4 (stripL s.data) = Option.none →
      parse_Ymd (stripL s.data) = Option.some d →
      normalize_date_to_iso (PyVal.str s) = Option.some (renderIso d)) := by
  refine ⟨by decide, by decide, by decide, by decide,
    fun n => rfl, fun q => rfl, fun b => rfl, fun xs => rfl, fun es => rfl,
    ?_, ?_, ?_⟩
  · intro s d h
    have hs : s ≠ "" := by
      rintro rfl
      rw [show stripL ("" : String).data = [] from rfl] at h
      exact Option.noConfusion (h.symm.trans (show parse_mdy2 [] = Option.none from rfl))
    simp [normalize_date_to_iso, hs, h]
  · intro s d h1 h2
    have hs : s ≠ "" := by
      rintro rfl
      rw [show stripL ("" : String).data = [] from rfl] at h2
      exact Option.noConfusion (h2.symm.trans (show parse_mdY4 [] = Option.none from rfl))
    simp [normalize_date_to_iso, hs, h1, h2]
  · intro s d h1 h2 h3
    have hs : s ≠ "" := by
      rintro rfl
      rw [show stripL ("" : String).data = [] from rfl] at h3
      exact Option.noConfusion (h3.symm.trans (show parse_Ymd [] = Option.none from rfl))
    simp [normalize_date_to_iso, hs, h1, h2, h3]

/-- Witness for C4: the first-format conjunct applied at `"03/15/24"`,
whose `%m/%d/%y` parse is March 15, 2024. -/
theorem claim_C4_witness :
    parse_mdy2 (stripL ("03/15/24" : String).data) = Option.some ⟨2024, 3, 15⟩ ∧
    normalize_date_to_iso (PyVal.str ("03/15/24")) =
      Option.some (renderIso ⟨2024, 3, 15⟩) :=
  ⟨by decide,
   claim_C4.2.2.2.2.2.2.2.2.2.1 ("03/15/24") ⟨2024, 3, 15⟩ (by decide)⟩

/-- C5: `coerce_number` passes numeric inputs through, maps null to null,
and runs strings through strip / comma removal / single-leading-dollar
removal / float parse, with null for unparsable inputs; the spec examples
hold (`mkRat 123456 100` is the rational 1234.56). -/
theorem claim_C5 :
    coerce_number (PyVal.str ("$1,234.56")) = Option.some (mkRat 123456 100) ∧
    (mkRat 123456 100 : Rat) = 1234.56 ∧
    coerce_number PyVal.none = Option.none ∧
    coerce_number (PyVal.str ("abc")) = Option.none ∧
    coerce_number (PyVal.int 42) = Option.some ((42 : Int) : Rat) ∧
    (∀ n : Int, coerce_number (PyVal.int n) = Option.some ((n : Int) : Rat)) ∧
    (∀ q : Rat, coerce_number (PyVal.float q) = Option.some q) ∧
    (∀ s : String, coerce_number (PyVal.str s) =
      parsePyFloat (stripLeadingDollar (removeCommas (stripL s.data)))) ∧
    (∀ xs, coerce_number (PyVal.list xs) = Option.none) ∧
    (∀ es, coerce_number (PyVal.dict es) = Option.none) ∧
    coerce_number (PyVal.str ("$$5")) = Option.none ∧
    coerce_number (PyVal.str ("1,2,3")) = Option.some (mkRat 123 1) := by
  refine ⟨by decide, ?_, by decide, by decide, by decide,
    fun n => rfl, fun q => rfl, fun s => rfl, fun xs => rfl, fun es => rfl,
    by decide, by decide⟩
  rw [Rat.mkRat_eq_div]
  norm_num

/-- C1 fails as stated: the code trims the text layer before *both* the
length check and the return (`text_layer = (page.get_text("text") or
"").strip()`), so when the trimmed layer has length at least 30 the stored
text is the trimmed string, not the raw embedded layer.  Here the embedded
layer has three leading spaces, the trimmed length is 31, `used_ocr` is
false, and the stored text differs from the raw layer. -/
theorem claim_C1_counterexample :
    30 ≤ (pyStrip ("   0123456789012345678901234567890")).length ∧
    extract_text_from_page
        (⟨id, id, id, id, fun _ _ => ()⟩ : PILOps Unit) (fun _ _ => "OCR")
        (fun _ => Option.some ("   0123456789012345678901234567890")) () () =
      ("0123456789012345678901234567890", false) ∧
    ("0123456789012345678901234567890" : String) ≠
      "   0123456789012345678901234567890" := by
  refine ⟨by decide, by decide, by decide⟩

/-- C1 (amended): `extract_text_from_page` returns the *trimmed* embedded
text layer with `used_ocr = false` when the trimmed layer has length at
least 30 (the same trimmed string is used for the check and the stored
value); otherwise it returns the OCR output on the `preprocess_for_ocr`
image, with segmentation config `--psm 6` and `used_ocr = true`. -/
theorem claim_C1_amended {Pg Img : Type} (ops : PILOps Img)
    (tess : Img → String → String) (get_text : Pg → Option String)
    (page : Pg) (img : Img) :
    (30 ≤ (String.mk (stripL ((get_text page).getD ("")).data)).length →
      extract_text_from_page ops tess get_text page img =
        (String.mk (stripL ((get_text page).getD ("")).data), false)) ∧
    ((String.mk (stripL ((get_text page).getD ("")).data)).length < 30 →
      extract_text_from_page ops tess get_text page img =
        (tess (preprocess_for_ocr ops img) ("--psm 6"), true)) := by
  constructor
  · intro h
    have h2 : 30 ≤ (stripL ((get_text page).getD ("")).data).length := h
    simp [extract_text_from_page, h2]
  · intro h
    have h2 : (stripL ((get_text page).getD ("")).data).length < 30 := h
    simp [extract_text_from_page, Nat.not_le.mpr h2]

/-- Witness for C1 (amended): a page whose trimmed text layer has exactly
30 characters keeps the text layer and does not OCR. -/
theorem claim_C1_witness :
    30 ≤ (String.mk (stripL (((fun _ => Option.some ("  012345678901234567890123456789")) ()
        : Option String).getD ("")).data)).length ∧
    extract_text_from_page
        (⟨id, id, id, id, fun _ _ => ()⟩ : PILOps Unit) (fun _ _ => "OCR")
        (fun _ => Option.some ("  012345678901234567890123456789")) () () =
      (String.mk (stripL (((fun _ => Option.some ("  012345678901234567890123456789")) ()
        : Option String).getD ("")).data), false) :=
  ⟨by decide,
   (claim_C1_amended ⟨id, id, id, id, fun _ _ => ()⟩ (fun _ _ => "OCR")
      (fun _ => Option.some ("  012345678901234567890123456789")) () ()).1 (by decide)⟩

/-- Shared lemma: on a store whose pages and images are present, non-empty
and of equal length, every integer outside `[1, N]` makes both tools
return the out-of-range error string. -/
theorem tools_out_of_range {Img : Type} [Inhabited Img] (ops : PILOps Img)
    (tess : Img → String → String) (store : DocStore Img)
    (ps : List Page) (ims : List Img) (n : Int)
    (hp : store.pages = Option.some ps) (hi : store.images = Option.some ims)
    (hne : ps ≠ []) (hlen : ims.length = ps.length)
    (hout : n < 1 ∨ (ps.length : Int) < n) :
    get_page_text store n =
      "ERROR: page_number out of range. Must be 1.." ++ toString ps.length ∧
    ocr_page ops tess store n =
      "ERROR: page_number out of range. Must be 1.." ++ toString ps.length := by
  have hine : ims ≠ [] := by
    intro h
    rw [h] at hlen
    exact hne (List.eq_nil_of_length_eq_zero hlen.symm)
  constructor
  · simp only [get_page_text, hp]
    rw [if_neg (by simp [List.isEmpty_iff, hne]), if_pos hout]
  · simp only [ocr_page, hi]
    rw [if_neg (by simp [List.isEmpty_iff, hine]), if_pos (by rw [hlen]; exact hout), hlen]

/-- C7 fails as stated at N = 0: a loaded zero-page document (reached here
through the actual upload handler, which leaves `pages = []`) hits the
code's `if not pages:` branch — the empty list is falsy — so for
`page_number = 1` (which is N + 1, outside `[1, 0]`) the tools return
their empty-store error strings, not the claimed out-of-range string
(ERROR: page_number out of range. Must be 1..0). -/
theorem claim_C7_counterexample :
    ((upload (⟨id, id, id, id, fun _ _ => ()⟩ : PILOps Unit)
        (fun _ _ => "OCR") (fun _ => Option.some ("")) (fun _ _ => ())
        (fun _ => ([] : List Unit)) (fun _ => "h") (emptyStore Unit) [7] 200).store.pages,
     get_page_text (upload (⟨id, id, id, id, fun _ _ => ()⟩ : PILOps Unit)
        (fun _ _ => "OCR") (fun _ => Option.some ("")) (fun _ _ => ())
        (fun _ => ([] : List Unit)) (fun _ => "h") (emptyStore Unit) [7] 200).store 1,
     ocr_page (⟨id, id, id, id, fun _ _ => ()⟩ : PILOps Unit) (fun _ _ => "OCR")
       (upload (⟨id, id, id, id, fun _ _ => ()⟩ : PILOps Unit)
        (fun _ _ => "OCR") (fun _ => Option.some ("")) (fun _ _ => ())
        (fun _ => ([] : List Unit)) (fun _ => "h") (emptyStore Unit) [7] 200).store 1) =
    (Option.some ([] : List Page),
     "ERROR: No pages loaded. Upload and process a PDF first.",
     "ERROR: No document images loaded. Upload and process a PDF first.") ∧
    ("ERROR: No pages loaded. Upload and process a PDF first." : String) ≠
      "ERROR: page_number out of range. Must be 1.." ++ toString (0 : Nat) ∧
    ("ERROR: No document images loaded. Upload and process a PDF first." : String) ≠
      "ERROR: page_number out of range. Must be 1.." ++ toString (0 : Nat) := by
  refine ⟨by decide, by decide, by decide⟩

/-- C7 (amended): with a loaded document of N ≥ 1 pages, any integer
`page_number` outside `[1, N]` (including 0 and N + 1) makes both
`get_page_text` and `ocr_page` return the out-of-range error string
(ERROR: page_number out of range. Must be 1..N).  Both functions are
total (they return strings, never raise).  For a loaded zero-page
document the `if not pages:` guard treats the empty list as an empty
store and both tools return their empty-store error strings instead;
see the counterexample. -/
theorem claim_C7 {Img : Type} [Inhabited Img] (ops : PILOps Img)
    (tess : Img → String → String) (store : DocStore Img)
    (ps : List Page) (ims : List Img) (n : Int)
    (hp : store.pages = Option.some ps) (hi : store.images = Option.some ims)
    (hne : ps ≠ []) (hlen : ims.length = ps.length)
    (hout : n < 1 ∨ (ps.length : Int) < n) :
    get_page_text store n =
      "ERROR: page_number out of range. Must be 1.." ++ toString ps.length ∧
    ocr_page ops tess store n =
      "ERROR: page_number out of range. Must be 1.." ++ toString ps.length :=
  tools_out_of_range ops tess store ps ims n hp hi hne hlen hout

/-- Witness for C7: a one-page store queried at page 0. -/
theorem claim_C7_witness :
    get_page_text
        (⟨Option.some ("d"), Option.some [⟨1, false, "t"⟩], Option.some [()],
          Option.some ("t")⟩ : DocStore Unit) 0 =
      "ERROR: page_number out of range. Must be 1.." ++ toString (1 : Nat) ∧
    ocr_page ⟨id, id, id, id, fun _ _ => ()⟩ (fun _ _ => "OCR")
        (⟨Option.some ("d"), Option.some [⟨1, false, "t"⟩], Option.some [()],
          Option.some ("t")⟩ : DocStore Unit) 0 =
      "ERROR: page_number out of range. Must be 1.." ++ toString (1 : Nat) :=
  claim_C7 ⟨id, id, id, id, fun _ _ => ()⟩ (fun _ _ => "OCR") _
    [⟨1, false, "t"⟩] [()] 0 rfl rfl (by decide) (by decide) (Or.inl (by decide))

/-- C8 fails as stated: the two tools do use identical out-of-range error
strings, but their empty-store error strings differ — `get_page_text` says
`"ERROR: No pages loaded. ..."` while `ocr_page` says `"ERROR: No document
images loaded. ..."`. -/
theorem claim_C8_counterexample :
    get_page_text (emptyStore Unit) 1 =
      "ERROR: No pages loaded. Upload and process a PDF first." ∧
    ocr_page ⟨id, id, id, id, fun _ _ => ()⟩ (fun _ _ => "OCR") (emptyStore Unit) 1 =
      "ERROR: No document images loaded. Upload and process a PDF first." ∧
    get_page_text (emptyStore Unit) 1 ≠
      ocr_page ⟨id, id, id, id, fun _ _ => ()⟩ (fun _ _ => "OCR") (emptyStore Unit) 1 := by
  refine ⟨by decide, by decide, by decide⟩

/-- C8 (amended): for a consistently loaded store the two tools return the
identical out-of-range error string; on an empty store both return an
`ERROR:`-prefixed string, but the two empty-store messages differ in
wording. -/
theorem claim_C8_amended {Img : Type} [Inhabited Img] (ops : PILOps Img)
    (tess : Img → String → String) (store : DocStore Img)
    (ps : List Page) (ims : List Img) (n : Int)
    (hp : store.pages = Option.some ps) (hi : store.images = Option.some ims)
    (hne : ps ≠ []) (hlen : ims.length = ps.length)
    (hout : n < 1 ∨ (ps.length : Int) < n) :
    get_page_text store n = ocr_page ops tess store n ∧
    (∀ store2 : DocStore Img, store2.pages = Option.none →
      store2.images = Option.none →
      (get_page_text store2 n).take 6 = "ERROR:" ∧
      (ocr_page ops tess store2 n).take 6 = "ERROR:" ∧
      get_page_text store2 n ≠ ocr_page ops tess store2 n) := by
  constructor
  · obtain ⟨h1, h2⟩ := tools_out_of_range ops tess store ps ims n hp hi hne hlen hout
    rw [h1, h2]
  · intro store2 hp2 hi2
    simp only [get_page_text, ocr_page, hp2, hi2]
    refine ⟨by decide, by decide, by decide⟩

/-- Witness for C8 (amended): the one-page store at page 0, and the empty
store. -/
theorem claim_C8_witness :
    get_page_text
        (⟨Option.some ("d"), Option.some [⟨1, false, "t"⟩], Option.some [()],
          Option.some ("t")⟩ : DocStore Unit) 0 =
      ocr_page ⟨id, id, id, id, fun _ _ => ()⟩ (fun _ _ => "OCR")
        (⟨Option.some ("d"), Option.some [⟨1, false, "t"⟩], Option.some [()],
          Option.some ("t")⟩ : DocStore Unit) 0 ∧
    get_page_text (emptyStore Unit) 0 ≠
      ocr_page ⟨id, id, id, id, fun _ _ => ()⟩ (fun _ _ => "OCR") (emptyStore Unit) 0 :=
  ⟨(claim_C8_amended ⟨id, id, id, id, fun _ _ => ()⟩ (fun _ _ => "OCR") _
      [⟨1, false, "t"⟩] [()] 0 rfl rfl (by decide) (by decide) (Or.inl (by decide))).1,
   ((claim_C8_amended ⟨id, id, id, id, fun _ _ => ()⟩ (fun _ _ => "OCR")
      (⟨Option.some ("d"), Option.some [⟨1, false, "t"⟩], Option.some [()],
        Option.some ("t")⟩ : DocStore Unit)
      [⟨1, false, "t"⟩] [()] 0 rfl rfl (by decide) (by decide)
      (Or.inl (by decide))).2 (emptyStore Unit) rfl rfl).2.2⟩

/-- C9 fails as stated: `get_full_text` also returns the error string when a
document *has* been processed but its cached `full_text` is empty or
whitespace-only.  A zero-page PDF processed through the actual upload
handler leaves `full_text = ""` and a populated store, yet the tool reports
the no-document error. -/
theorem claim_C9_counterexample :
    ((upload (⟨id, id, id, id, fun _ _ => ()⟩ : PILOps Unit)
        (fun _ _ => "OCR") (fun _ => Option.some ("")) (fun _ _ => ())
        (fun _ => ([] : List Unit)) (fun _ => "h") (emptyStore Unit) [7] 200).store.doc_id,
     (upload (⟨id, id, id, id, fun _ _ => ()⟩ : PILOps Unit)
        (fun _ _ => "OCR") (fun _ => Option.some ("")) (fun _ _ => ())
        (fun _ => ([] : List Unit)) (fun _ => "h") (emptyStore Unit) [7] 200).store.full_text,
     get_full_text (upload (⟨id, id, id, id, fun _ _ => ()⟩ : PILOps Unit)
        (fun _ _ => "OCR") (fun _ => Option.some ("")) (fun _ _ => ())
        (fun _ => ([] : List Unit)) (fun _ => "h") (emptyStore Unit) [7] 200).store) =
    (Option.some ("h"), Option.some (""),
     "ERROR: No document text loaded. Upload and process a PDF first.") := by
  decide

/-- C9 (amended): `get_full_text` returns the cached `full_text` exactly
when it is present with non-whitespace content; otherwise — the store
empty, or the cached text empty/whitespace-only — it returns the error
string `"ERROR: No document text loaded. Upload and process a PDF
first."`. -/
theorem claim_C9_amended {Img : Type} (store : DocStore Img) :
    (store.full_text = Option.none →
      get_full_text store =
        "ERROR: No document text loaded. Upload and process a PDF first.") ∧
    (∀ t, store.full_text = Option.some t → pyStrip t ≠ "" →
      get_full_text store = t) ∧
    (∀ t, store.full_text = Option.some t → pyStrip t = "" →
      get_full_text store =
        "ERROR: No document text loaded. Upload and process a PDF first.") := by
  refine ⟨?_, ?_, ?_⟩
  · intro h
    simp [get_full_text, h]
  · intro t h hs
    have ht : t ≠ "" := by
      rintro rfl
      exact hs rfl
    simp [get_full_text, h, ht, hs]
  · intro t h hs
    simp [get_full_text, h, hs]

/-- Witness for C9 (amended): a store holding non-whitespace text returns
it verbatim. -/
theorem claim_C9_witness :
    get_full_text
        (⟨Option.some ("d"), Option.some [⟨1, false, "INVOICE"⟩], Option.some [()],
          Option.some ("INVOICE")⟩ : DocStore Unit) = "INVOICE" :=
  (claim_C9_amended
      (⟨Option.some ("d"), Option.some [⟨1, false, "INVOICE"⟩], Option.some [()],
        Option.some ("INVOICE")⟩ : DocStore Unit)).2.1 ("INVOICE") rfl (by decide)

/-- C3: the Document Store cache is keyed purely by the content hash of the
uploaded bytes.  (1) When the cached `doc_id` equals the hash of the
incoming bytes and pages are present, the upload handler leaves the store
untouched and performs zero renders and zero OCR calls — for *any* DPI, so
re-uploading the same bytes at a different DPI does not re-render.  (2) When
the cached `doc_id` differs from the incoming hash, the store is rebuilt
exactly as from an empty store (full replacement), every page of the opened
document is rendered, and the new `doc_id` is the incoming hash.  (3) An
upload followed by a second upload of the same bytes at any other DPI is a
cache hit. -/
theorem claim_C3 {Pg Img : Type} (ops : PILOps Img) (tess : Img → String → String)
    (get_text : Pg → Option String) (render : Pg → Nat → Img)
    (open_pdf : List Nat → List Pg) (sha256 : List Nat → String) :
    (∀ (store : DocStore Img) (b : List Nat) (dpi : Nat),
      store.doc_id = Option.some (sha256 b) → store.pages ≠ Option.none →
      upload ops tess get_text render open_pdf sha256 store b dpi = ⟨store, 0, 0⟩) ∧
    (∀ (store : DocStore Img) (b : List Nat) (dpi : Nat),
      store.doc_id ≠ Option.some (sha256 b) →
      upload ops tess get_text render open_pdf sha256 store b dpi =
        upload ops tess get_text render open_pdf sha256 (emptyStore Img) b dpi ∧
      (upload ops tess get_text render open_pdf sha256 store b dpi).renders =
        (open_pdf b).length ∧
      (upload ops tess get_text render open_pdf sha256 store b dpi).store.doc_id =
        Option.some (sha256 b)) ∧
    (∀ (b : List Nat) (dpi1 dpi2 : Nat),
      upload ops tess get_text render open_pdf sha256
          (upload ops tess get_text render open_pdf sha256 (emptyStore Img) b dpi1).store
          b dpi2 =
        ⟨(upload ops tess get_text render open_pdf sha256 (emptyStore Img) b dpi1).store,
          0, 0⟩) := by
  refine ⟨?_, ?_, ?_⟩
  · intro store b dpi hd hp
    simp only [upload]
    rw [if_neg (by rintro (h | h); exacts [h hd, hp h])]
  · intro store b dpi hd
    refine ⟨?_, ?_, ?_⟩
    · simp only [upload]
      rw [if_pos (Or.inl hd), if_pos (Or.inl (by simp [emptyStore]))]
    · simp only [upload]
      rw [if_pos (Or.inl hd)]
    · simp only [upload]
      rw [if_pos (Or.inl hd)]
  · intro b dpi1 dpi2
    have h1 : (upload ops tess get_text render open_pdf sha256 (emptyStore Img)
        b dpi1).store.doc_id = Option.some (sha256 b) := by
      simp only [upload]
      rw [if_pos (Or.inl (by simp [emptyStore]))]
    have h2 : (upload ops tess get_text render open_pdf sha256 (emptyStore Img)
        b dpi1).store.pages ≠ Option.none := by
      simp only [upload]
      rw [if_pos (Or.inl (by simp [emptyStore]))]
      simp
    simp only [upload]
    rw [if_neg (by rintro (h | h); exacts [h h1, h2 h])]

/-- Witness for C3: a concrete cache hit — the stored `doc_id` matches the
hash of the incoming bytes, pages are present, and the upload handler
returns the store unchanged with zero renders and zero OCR calls. -/
theorem claim_C3_witness :
    upload (⟨id, id, id, id, fun _ _ => ()⟩ : PILOps Unit)
        (fun _ _ => "OCR") (fun _ => Option.some ("")) (fun _ _ => ())
        (fun _ => ([()] : List Unit)) (fun _ => "h")
        ⟨Option.some ("h"), Option.some [⟨1, false, "t"⟩], Option.some [()],
         Option.some ("t")⟩ [1, 2] 200 =
      ⟨⟨Option.some ("h"), Option.some [⟨1, false, "t"⟩], Option.some [()],
        Option.some ("t")⟩, 0, 0⟩ :=
  (claim_C3 ⟨id, id, id, id, fun _ _ => ()⟩ (fun _ _ => "OCR")
      (fun _ => Option.some ("")) (fun _ _ => ()) (fun _ => [()]) (fun _ => "h")).1
    ⟨Option.some ("h"), Option.some [⟨1, false, "t"⟩], Option.some [()],
     Option.some ("t")⟩ [1, 2] 200 rfl (by simp)

/-- C10: when the agent answer parses as valid JSON whose top-level value is
not an object, the run does not report the invalid-JSON message: the
normalization step raises `AttributeError` at `.get("fields", {})`, the
error message is the stringified exception from the generic handler, and
the payload's `extraction` entry still holds the parsed non-object value
rather than `{}`. -/
theorem claim_C10 (answer : String) (v : PyVal)
    (hparse : json_loads (extract_json answer) = Option.some v)
    (hnd : isDict v = false) :
    run_extraction (Except.ok answer) =
      ⟨v, Option.some answer,
       Option.some (strOfExc (PyExc.attributeError (pyTypeName v) ("get")))⟩ ∧
    strOfExc (PyExc.attributeError (pyTypeName v) ("get")) ≠ invalidJsonMsg ∧
    (∀ (Img : Type) (store : DocStore Img) (temp : Rat),
      dictLookup (result_payload store (run_extraction (Except.ok answer)) temp)
        ("extraction") = Option.some v) := by
  have hnb : normalizeBlock v =
      (v, Option.some (PyExc.attributeError (pyTypeName v) ("get"))) := by
    cases v <;> first | rfl | (exact absurd hnd (by simp [isDict]))
  have hrun : run_extraction (Except.ok answer) =
      ⟨v, Option.some answer,
       Option.some (strOfExc (PyExc.attributeError (pyTypeName v) ("get")))⟩ := by
    simp only [run_extraction, hparse, hnb]
  refine ⟨hrun, ?_, ?_⟩
  · cases v <;> (simp only [pyTypeName]; decide)
  · intro Img store temp
    rw [hrun]
    simp [result_payload, dictLookup,
      show ("text" : String) ≠ "extraction" by decide,
      show ("pages" : String) ≠ "extraction" by decide]

/-- Witness for C10: the agent answer `[1]` — a JSON array — yields the
`AttributeError` message, not the invalid-JSON message, and the array
survives as the extraction value. -/
theorem claim_C10_witness :
    json_loads (extract_json ("[1]")) = Option.some (PyVal.list [PyVal.int 1]) ∧
    isDict (PyVal.list [PyVal.int 1]) = false ∧
    run_extraction (Except.ok ("[1]")) =
      ⟨PyVal.list [PyVal.int 1], Option.some ("[1]"),
       Option.some (strOfExc (PyExc.attributeError ("list") ("get")))⟩ :=
  ⟨rfl, rfl, (claim_C10 ("[1]") (PyVal.list [PyVal.int 1]) rfl rfl).1⟩

/-! # Normalization-block lemmas (for C2) -/

theorem applyDateFix_ne (fes : List (String × PyVal)) (key k : String)
    (hk : k ≠ key) :
    ∀ fes1, applyDateFix fes key = Except.ok fes1 →
      dictLookup fes1 k = dictLookup fes k := by
  intro fes1 h
  by_cases ht : truthy (dictGetD fes key (PyVal.dict [])) = true
  · cases hnode : dictGetD fes key (PyVal.dict []) with
    | dict nes =>
      rw [hnode] at ht
      by_cases hg : (truthy (dictGetNone nes ("value")) &&
          !truthy (dictGetNone nes ("value_iso"))) = true
      · by_cases hs : (dictLookup fes key).isSome
        · have hv : applyDateFix fes key = Except.ok (dictSet fes key
              (PyVal.dict (dictSet nes ("value_iso")
                ((normalize_date_to_iso (dictGetNone nes ("value"))).elim
                  PyVal.none PyVal.str)))) := by
            simp [applyDateFix, hnode, ht, hg, hs]
          rw [hv] at h
          injection h with h2
          subst h2
          exact dictLookup_dictSet_ne _ _ _ _ hk
        · have hv : applyDateFix fes key = Except.ok fes := by
            simp [applyDateFix, hnode, ht, hg, hs]
          rw [hv] at h
          injection h with h2
          subst h2
          rfl
      · have hv : applyDateFix fes key = Except.ok fes := by
          simp [applyDateFix, hnode, ht, hg]
        rw [hv] at h
        injection h with h2
        subst h2
        rfl
    | none =>
      rw [hnode] at ht
      simp [applyDateFix, hnode, ht] at h
    | bool b =>
      rw [hnode] at ht
      simp [applyDateFix, hnode, ht] at h
    | int n =>
      rw [hnode] at ht
      simp [applyDateFix, hnode, ht] at h
    | float q =>
      rw [hnode] at ht
      simp [applyDateFix, hnode, ht] at h
    | str s =>
      rw [hnode] at ht
      simp [applyDateFix, hnode, ht] at h
    | list xs =>
      rw [hnode] at ht
      simp [applyDateFix, hnode, ht] at h
  · have hv : applyDateFix fes key = Except.ok fes := by
      simp [applyDateFix, ht]
    rw [hv] at h
    injection h with h2
    subst h2
    rfl

theorem applyDateFix_preserve (fes : List (String × PyVal)) (key : String)
    (nes : List (String × PyVal))
    (h : dictLookup fes key = Option.some (PyVal.dict nes))
    (hiso : truthy (dictGetNone nes ("value_iso")) = true) :
    applyDateFix fes key = Except.ok fes := by
  by_cases ht : truthy (PyVal.dict nes) = true
  · simp [applyDateFix, dictGetD, h, ht, hiso]
  · simp [applyDateFix, dictGetD, h, ht]

theorem applyDateFix_ok (fes : List (String × PyVal)) (key : String)
    (h : dateSafe (dictGetD fes key (PyVal.dict []))) :
    ∃ fes1, applyDateFix fes key = Except.ok fes1 ∧
      ∀ k, k ≠ key → dictLookup fes1 k = dictLookup fes k := by
  rcases h with hf | ⟨l, hl⟩
  · exact ⟨fes, by simp [applyDateFix, hf], fun k hk => rfl⟩
  · by_cases ht : truthy (PyVal.dict l) = true
    · by_cases hg : (truthy (dictGetNone l ("value")) &&
          !truthy (dictGetNone l ("value_iso"))) = true
      · by_cases hs : (dictLookup fes key).isSome
        · refine ⟨dictSet fes key (PyVal.dict (dictSet l ("value_iso")
            ((normalize_date_to_iso (dictGetNone l ("value"))).elim PyVal.none PyVal.str))),
            ?_, ?_⟩
          · simp [applyDateFix, hl, ht, hg, hs]
          · intro k hk
            exact dictLookup_dictSet_ne _ _ _ _ hk
        · exact ⟨fes, by simp [applyDateFix, hl, ht, hg, hs], fun k hk => rfl⟩
      · exact ⟨fes, by simp [applyDateFix, hl, ht, hg], fun k hk => rfl⟩
    · exact ⟨fes, by simp [applyDateFix, hl, ht], fun k hk => rfl⟩

theorem applyCoerce_ne (fes : List (String × PyVal)) (key k : String)
    (hk : k ≠ key) :
    dictLookup (applyCoerce fes key) k = dictLookup fes k := by
  unfold applyCoerce
  split
  · exact dictLookup_dictSet_ne _ _ _ _ hk
  · rfl

theorem applyCoerce_self (fes : List (String × PyVal)) (key : String)
    (nes : List (String × PyVal))
    (h : dictLookup fes key = Option.some (PyVal.dict nes)) :
    dictLookup (applyCoerce fes key) key =
      Option.some (PyVal.dict (dictSet nes ("value")
        ((coerce_number (dictGetNone nes ("value"))).elim PyVal.none PyVal.float))) := by
  unfold applyCoerce
  rw [h]
  exact dictLookup_dictSet_self _ _ _

theorem normalizeFields_frame (fes : List (String × PyVal)) (k : String)
    (h1 : k ≠ "invoice_date") (h2 : k ≠ "due_date") (h3 : k ≠ "tax")
    (h4 : k ≠ "total") (h5 : k ≠ "balance_due") :
    dictLookup (normalizeFields fes).1 k = dictLookup fes k := by
  unfold normalizeFields
  cases hinv : applyDateFix fes ("invoice_date") with
  | error e => simp [hinv]
  | ok fes1 =>
    have e1 := applyDateFix_ne fes ("invoice_date") k h1 fes1 hinv
    cases hdue : applyDateFix fes1 ("due_date") with
    | error e => simp [hinv, hdue, e1]
    | ok fes2 =>
      have e2 := applyDateFix_ne fes1 ("due_date") k h2 fes2 hdue
      simp only [hinv, hdue, List.foldl]
      rw [applyCoerce_ne _ _ _ h5, applyCoerce_ne _ _ _ h4, applyCoerce_ne _ _ _ h3,
        e2, e1]

theorem normalizeBlock_fields (es fes : List (String × PyVal))
    (hf : dictLookup es ("fields") = Option.some (PyVal.dict fes)) :
    (normalizeBlock (PyVal.dict es)).1 =
      PyVal.dict (dictSet es ("fields") (PyVal.dict (normalizeFields fes).1)) := by
  have hs : (dictLookup es ("fields")).isSome = true := by
    rw [hf]
    rfl
  rcases hnf : normalizeFields fes with ⟨fes1, e?⟩
  cases e? with
  | none => simp [normalizeBlock, dictGetD, hf, hnf]
  | some e => simp [normalizeBlock, dictGetD, hf, hnf, hs]

theorem fieldsView_dictSet (es : List (String × PyVal)) (x : List (String × PyVal))
    (k : String) :
    fieldsView (PyVal.dict (dictSet es ("fields") (PyVal.dict x))) k =
      dictLookup x k := by
  simp [fieldsView, dictLookup_dictSet_self]

/-- C2 fails as stated: the numeric loop `node["value"] =
coerce_number(node.get("value"))` runs unconditionally on every dict node
of `tax`/`total`/`balance_due`, so a non-null string the agent supplied is
overwritten — here `tax.value = "abc"` (truthy, non-null) becomes null
after normalization. -/
theorem claim_C2_counterexample :
    truthy (PyVal.str "abc") = true ∧
    fieldsView (PyVal.dict [("fields", PyVal.dict
        [("tax", PyVal.dict [("value", PyVal.str "abc")])])]) ("tax") =
      Option.some (PyVal.dict [("value", PyVal.str "abc")]) ∧
    (normalizeBlock (PyVal.dict [("fields", PyVal.dict
        [("tax", PyVal.dict [("value", PyVal.str "abc")])])])).1 =
      PyVal.dict [("fields", PyVal.dict
        [("tax", PyVal.dict [("value", PyVal.none)])])] ∧
    PyVal.str "abc" ≠ PyVal.none :=
  ⟨rfl, rfl, rfl, fun h => PyVal.noConfusion h⟩

/-- C2 (amended): the normalization step applied after a successful JSON
parse (a) never touches fields other than `invoice_date`, `due_date`,
`tax`, `total`, `balance_due`; (b) leaves a date node unchanged whenever
its `value_iso` is already truthy (in particular it never overwrites a
non-null, non-empty `value_iso`); but (c) for `tax`, `total` and
`balance_due` it unconditionally replaces `value` by
`coerce_number(value)` — overwriting values the agent already supplied,
including non-null strings (hence the claim's "never overwrites an
existing non-null value" is false; see the counterexample). -/
theorem claim_C2_amended (es fes : List (String × PyVal))
    (hf : dictLookup es ("fields") = Option.some (PyVal.dict fes)) :
    (∀ k, k ≠ "invoice_date" → k ≠ "due_date" → k ≠ "tax" → k ≠ "total" →
      k ≠ "balance_due" →
      fieldsView (normalizeBlock (PyVal.dict es)).1 k = dictLookup fes k) ∧
    (∀ nes, dictLookup fes ("invoice_date") = Option.some (PyVal.dict nes) →
      truthy (dictGetNone nes ("value_iso")) = true →
      fieldsView (normalizeBlock (PyVal.dict es)).1 ("invoice_date") =
        Option.some (PyVal.dict nes)) ∧
    (∀ nes, dictLookup fes ("due_date") = Option.some (PyVal.dict nes) →
      truthy (dictGetNone nes ("value_iso")) = true →
      fieldsView (normalizeBlock (PyVal.dict es)).1 ("due_date") =
        Option.some (PyVal.dict nes)) ∧
    (dateSafe (dictGetD fes ("invoice_date") (PyVal.dict [])) →
     dateSafe (dictGetD fes ("due_date") (PyVal.dict [])) →
     ∀ key nes, (key = "tax" ∨ key = "total" ∨ key = "balance_due") →
      dictLookup fes key = Option.some (PyVal.dict nes) →
      fieldsView (normalizeBlock (PyVal.dict es)).1 key =
        Option.some (PyVal.dict (dictSet nes ("value")
          ((coerce_number (dictGetNone nes ("value"))).elim PyVal.none PyVal.float)))) := by
  have hblock := normalizeBlock_fields es fes hf
  refine ⟨?_, ?_, ?_, ?_⟩
  · intro k h1 h2 h3 h4 h5
    rw [hblock, fieldsView_dictSet]
    exact normalizeFields_frame fes k h1 h2 h3 h4 h5
  · intro nes hn hiso
    have hfix := applyDateFix_preserve fes ("invoice_date") nes hn hiso
    rw [hblock, fieldsView_dictSet]
    cases hdue : applyDateFix fes ("due_date") with
    | error e =>
      simp only [normalizeFields, hfix, hdue]
      exact hn
    | ok fes2 =>
      have e2 := applyDateFix_ne fes ("due_date") ("invoice_date") (by decide) fes2 hdue
      simp only [normalizeFields, hfix, hdue, List.foldl]
      rw [applyCoerce_ne _ ("balance_due") ("invoice_date") (by decide),
        applyCoerce_ne _ ("total") ("invoice_date") (by decide),
        applyCoerce_ne _ ("tax") ("invoice_date") (by decide), e2]
      exact hn
  · intro nes hn hiso
    rw [hblock, fieldsView_dictSet]
    cases hinv : applyDateFix fes ("invoice_date") with
    | error e =>
      simp only [normalizeFields, hinv]
      exact hn
    | ok fes1 =>
      have e1 := applyDateFix_ne fes ("invoice_date") ("due_date") (by decide) fes1 hinv
      have hn1 : dictLookup fes1 ("due_date") = Option.some (PyVal.dict nes) := by
        rw [e1]
        exact hn
      have hfix := applyDateFix_preserve fes1 ("due_date") nes hn1 hiso
      simp only [normalizeFields, hinv, hfix, List.foldl]
      rw [applyCoerce_ne _ ("balance_due") ("due_date") (by decide),
        applyCoerce_ne _ ("total") ("due_date") (by decide),
        applyCoerce_ne _ ("tax") ("due_date") (by decide)]
      exact hn1
  · intro hsi hsd key nes hkey hn
    obtain ⟨fes1, hinv, hp1⟩ := applyDateFix_ok fes ("invoice_date") hsi
    have hsd1 : dateSafe (dictGetD fes1 ("due_date") (PyVal.dict [])) := by
      have hgd : dictGetD fes1 ("due_date") (PyVal.dict []) =
          dictGetD fes ("due_date") (PyVal.dict []) := by
        simp only [dictGetD, hp1 ("due_date") (by decide)]
      rw [hgd]
      exact hsd
    obtain ⟨fes2, hdue, hp2⟩ := applyDateFix_ok fes1 ("due_date") hsd1
    rw [hblock, fieldsView_dictSet]
    simp only [normalizeFields, hinv, hdue, List.foldl]
    rcases hkey with rfl | rfl | rfl
    · have hl2 : dictLookup fes2 ("tax") = Option.some (PyVal.dict nes) := by
        rw [hp2 ("tax") (by decide), hp1 ("tax") (by decide)]
        exact hn
      rw [applyCoerce_ne _ ("balance_due") ("tax") (by decide),
        applyCoerce_ne _ ("total") ("tax") (by decide)]
      exact applyCoerce_self fes2 ("tax") nes hl2
    · have hl2 : dictLookup fes2 ("total") = Option.some (PyVal.dict nes) := by
        rw [hp2 ("total") (by decide), hp1 ("total") (by decide)]
        exact hn
      rw [applyCoerce_ne _ ("balance_due") ("total") (by decide)]
      refine applyCoerce_self _ ("total") nes ?_
      rw [applyCoerce_ne _ ("tax") ("total") (by decide)]
      exact hl2
    · have hl2 : dictLookup fes2 ("balance_due") = Option.some (PyVal.dict nes) := by
        rw [hp2 ("balance_due") (by decide), hp1 ("balance_due") (by decide)]
        exact hn
      refine applyCoerce_self _ ("balance_due") nes ?_
      rw [applyCoerce_ne _ ("total") ("balance_due") (by decide),
        applyCoerce_ne _ ("tax") ("balance_due") (by decide)]
      exact hl2

/-- Witness for C2 (amended): a fields object carrying an untouched extra
field, an `invoice_date` with truthy `value_iso`, and a `tax` node whose
string value gets coerced. -/
theorem claim_C2_witness :
    fieldsView (normalizeBlock (PyVal.dict [("fields", PyVal.dict
        [("vendor_name", PyVal.str "ACME"),
         ("invoice_date", PyVal.dict [("value", PyVal.str "03/15/24"),
            ("value_iso", PyVal.str "2024-03-15")]),
         ("tax", PyVal.dict [("value", PyVal.str "5")])])])).1 ("vendor_name") =
      Option.some (PyVal.str "ACME") ∧
    fieldsView (normalizeBlock (PyVal.dict [("fields", PyVal.dict
        [("vendor_name", PyVal.str "ACME"),
         ("invoice_date", PyVal.dict [("value", PyVal.str "03/15/24"),
            ("value_iso", PyVal.str "2024-03-15")]),
         ("tax", PyVal.dict [("value", PyVal.str "5")])])])).1 ("invoice_date") =
      Option.some (PyVal.dict [("value", PyVal.str "03/15/24"),
        ("value_iso", PyVal.str "2024-03-15")]) ∧
    fieldsView (normalizeBlock (PyVal.dict [("fields", PyVal.dict
        [("vendor_name", PyVal.str "ACME"),
         ("invoice_date", PyVal.dict [("value", PyVal.str "03/15/24"),
            ("value_iso", PyVal.str "2024-03-15")]),
         ("tax", PyVal.dict [("value", PyVal.str "5")])])])).1 ("tax") =
      Option.some (PyVal.dict (dictSet [("value", PyVal.str "5")] ("value")
        ((coerce_number (dictGetNone [("value", PyVal.str "5")] ("value"))).elim
          PyVal.none PyVal.float))) :=
  by
  have h := claim_C2_amended
    [("fields", PyVal.dict
        [("vendor_name", PyVal.str "ACME"),
         ("invoice_date", PyVal.dict [("value", PyVal.str "03/15/24"),
            ("value_iso", PyVal.str "2024-03-15")]),
         ("tax", PyVal.dict [("value", PyVal.str "5")])])]
    [("vendor_name", PyVal.str "ACME"),
     ("invoice_date", PyVal.dict [("value", PyVal.str "03/15/24"),
        ("value_iso", PyVal.str "2024-03-15")]),
     ("tax", PyVal.dict [("value", PyVal.str "5")])] rfl
  exact ⟨h.1 ("vendor_name") (by decide) (by decide) (by decide) (by decide) (by decide),
    h.2.1 [("value", PyVal.str "03/15/24"), ("value_iso", PyVal.str "2024-03-15")] rfl rfl,
    h.2.2.2 (Or.inr ⟨_, rfl⟩) (Or.inl rfl) ("tax") [("value", PyVal.str "5")]
      (Or.inl rfl) rfl⟩

/-! # Fence-regex lemmas (for C6) -/

theorem hasTicks_cons_ne (c : Char) (l : List Char) (h : c ≠ btick) :
    hasTicks (c :: l) = Option.none := by
  cases l with
  | nil => rfl
  | cons x t =>
    cases t with
    | nil => rfl
    | cons y r => simp [hasTicks, h]

theorem closesOk_false : ∀ (mid : List Char), (∀ c ∈ mid, c ≠ btick) →
    ∀ (rest : List Char), closesOk (mid ++ '}' :: rest) = false := by
  intro mid
  induction mid with
  | nil =>
    intro h rest
    simp only [List.nil_append, closesOk, List.dropWhile_cons]
    rw [if_neg (by decide), hasTicks_cons_ne _ _ (by decide)]
    rfl
  | cons c mid ih =>
    intro h rest
    have hc : c ≠ btick := h c (List.mem_cons_self _ _)
    have hmid : ∀ x ∈ mid, x ≠ btick := fun x hx => h x (List.mem_cons_of_mem _ hx)
    by_cases hws : isWS c = true
    · simp only [List.cons_append, closesOk, List.dropWhile_cons]
      rw [if_pos hws]
      have := ih hmid rest
      simpa [closesOk] using this
    · simp only [List.cons_append, closesOk, List.dropWhile_cons]
      rw [if_neg hws, hasTicks_cons_ne _ _ hc]
      rfl

theorem findClose_append : ∀ (mid : List Char), (∀ c ∈ mid, c ≠ btick) →
    ∀ (rest : List Char), closesOk rest = true →
    ∀ acc, findClose (mid ++ '}' :: rest) acc =
      Option.some (acc.reverse ++ mid ++ ['}']) := by
  intro mid
  induction mid with
  | nil =>
    intro h rest hc acc
    simp only [List.nil_append, findClose]
    rw [if_pos]
    · simp
    · exact ⟨by trivial, hc⟩
  | cons c mid ih =>
    intro h rest hc acc
    have hmid : ∀ x ∈ mid, x ≠ btick := fun x hx => h x (List.mem_cons_of_mem _ hx)
    simp only [List.cons_append, findClose, List.append_eq]
    rw [if_neg (by
      rintro ⟨h1, h2⟩
      rw [closesOk_false mid hmid rest] at h2
      exact Bool.noConfusion h2)]
    rw [ih hmid rest hc (c :: acc)]
    simp

theorem stripL_brace (mid : List Char) :
    stripL ('{' :: mid ++ ['}']) = '{' :: mid ++ ['}'] := by
  have hdw : List.dropWhile isWS ('{' :: mid ++ ['}']) = '{' :: mid ++ ['}'] := by
    rw [List.cons_append, List.dropWhile_cons, if_neg (by decide), ← List.cons_append]
  have hrev : ('{' :: mid ++ ['}']).reverse = '}' :: (mid.reverse ++ ['{']) := by simp
  have hdw2 : List.dropWhile isWS ('}' :: (mid.reverse ++ ['{'])) =
      '}' :: (mid.reverse ++ ['{']) := by
    rw [List.dropWhile_cons, if_neg (by decide)]
  unfold stripL
  rw [hdw, hrev, hdw2]
  simp

theorem fenceMatchAt_fence (mid : List Char) (h : ∀ c ∈ mid, c ≠ btick) :
    fenceMatchAt (btick :: btick :: btick :: 'j' :: 's' :: 'o' :: 'n' :: '\n' ::
        '{' :: (mid ++ '}' :: '\n' :: btick :: btick :: btick :: [])) =
      Option.some ('{' :: mid ++ ['}']) := by
  show findClose (mid ++ '}' :: '\n' :: btick :: btick :: btick :: []) ['{'] = _
  rw [findClose_append mid h ('\n' :: btick :: btick :: btick :: []) (by decide) ['{']]
  simp

/-- C6 fails as stated: the lazy group `\{.*?\}` may close at a `}` inside a
string literal of the JSON object when that `}` is followed by whitespace
and three backticks.  For the valid JSON object whose only member value is
the string containing a brace and a triple backtick, the fence-stripped
parse fails while the inner object parses fine. -/
theorem claim_C6_counterexample :
    ("```json\n\x7b\"a\": \"\x7d ```\"\x7d\n```" : String) =
      "```json" ++ "\n" ++ "\x7b\"a\": \"\x7d ```\"\x7d" ++ "\n" ++ "```" ∧
    json_loads ("\x7b\"a\": \"\x7d ```\"\x7d") =
      Option.some (PyVal.dict [("a", PyVal.str ("\x7d ```"))]) ∧
    extract_json ("```json\n\x7b\"a\": \"\x7d ```\"\x7d\n```") = "\x7b\"a\": \"\x7d" ∧
    json_loads (extract_json ("```json\n\x7b\"a\": \"\x7d ```\"\x7d\n```")) =
      Option.none ∧
    (Option.none : Option PyVal) ≠
      Option.some (PyVal.dict [("a", PyVal.str ("\x7d ```"))]) :=
  ⟨rfl, rfl, rfl, rfl, fun h => Option.noConfusion h⟩

/-- C6 (amended): for an agent answer wrapped as three backticks + `json` +
newline + a brace-delimited object body + newline + three backticks, where
the object body contains no backtick character, `extract_json` returns the
inner object verbatim, hence parsing the fence-stripped answer equals
parsing the inner object directly.  (Without the no-backtick proviso the
lazy group can close early inside a string literal; see the
counterexample.) -/
theorem claim_C6_amended (mid : List Char) (h : ∀ c ∈ mid, c ≠ btick) :
    extract_json ("```json" ++ "\n" ++ String.mk ('{' :: mid ++ ['}']) ++ "\n" ++ "```") =
      String.mk ('{' :: mid ++ ['}']) ∧
    json_loads (extract_json
        ("```json" ++ "\n" ++ String.mk ('{' :: mid ++ ['}']) ++ "\n" ++ "```")) =
      json_loads (String.mk ('{' :: mid ++ ['}'])) := by
  have h1 : ("```json" : String).data =
      btick :: btick :: btick :: 'j' :: 's' :: 'o' :: 'n' :: [] := rfl
  have h2 : ("```" : String).data = btick :: btick :: btick :: [] := rfl
  have h3 : ("\n" : String).data = ['\n'] := rfl
  have hdata : ("```json" ++ "\n" ++ String.mk ('{' :: mid ++ ['}']) ++ "\n" ++ "```").data =
      btick :: btick :: btick :: 'j' :: 's' :: 'o' :: 'n' :: '\n' ::
        '{' :: (mid ++ '}' :: '\n' :: btick :: btick :: btick :: []) := by
    simp [h1, h2, h3, List.append_assoc]
    all_goals rfl
  have hne : ("```json" ++ "\n" ++ String.mk ('{' :: mid ++ ['}']) ++ "\n" ++ "```") ≠ "" := by
    intro hEq
    have hd := congrArg String.data hEq
    rw [hdata] at hd
    simp at hd
  have hsearch : fenceSearch (btick :: btick :: btick :: 'j' :: 's' :: 'o' :: 'n' :: '\n' ::
      '{' :: (mid ++ '}' :: '\n' :: btick :: btick :: btick :: [])) =
      Option.some ('{' :: mid ++ ['}']) := by
    rw [fenceSearch, fenceMatchAt_fence mid h]
  have hmain : extract_json
      ("```json" ++ "\n" ++ String.mk ('{' :: mid ++ ['}']) ++ "\n" ++ "```") =
      String.mk ('{' :: mid ++ ['}']) := by
    unfold extract_json
    rw [if_neg hne, hdata, hsearch]
    show String.mk (stripL ('{' :: mid ++ ['}'])) = String.mk ('{' :: mid ++ ['}'])
    rw [stripL_brace]
  exact ⟨hmain, congrArg json_loads hmain⟩

/-- Witness for C6 (amended): the one-member object body contains no
backtick, and the fence round-trips it verbatim. -/
theorem claim_C6_witness :
    (∀ c ∈ ("\"a\": 1" : String).data, c ≠ btick) ∧
    extract_json ("```json" ++ "\n" ++
        String.mk ('{' :: ("\"a\": 1" : String).data ++ ['}']) ++ "\n" ++ "```") =
      String.mk ('{' :: ("\"a\": 1" : String).data ++ ['}']) :=
  ⟨by decide, (claim_C6_amended (("\"a\": 1" : String).data) (by decide)).1⟩

end DocAI
